import Mathlib

/-
Shallow embedding of the flask_quiz_app repository (src/app.py, src/model.py).

The persistent store (SQLAlchemy tables User, Question, QuizResult) is
modelled as lists inside an explicit AppState, with autoincrement primary
keys modelled by next-id counters.  The per-client Flask session dictionary
is modelled by the Session structure with Option fields (a key that is
absent is none).  Each route handler becomes a pure function from the
session, the store, and the request data to the updated session/store and
a Response; Python exceptions (KeyError from an unguarded dictionary read,
TypeError from an invalid model-constructor keyword) are modelled with
Except PyError.
-/

namespace QuizApp

/-- The routes of app.py that handlers redirect to. -/
inductive Route
  | index
  | login
  | register
  | quiz
  | question (n : Nat)
  | result
  | admin_dashboard
  | add_question
deriving DecidableEq, Repr

/-- The observable outcome of a handler: a rendered template (with the
question-count value passed to the template, when the source passes one),
a redirect, or an abort with an HTTP status code. -/
inductive Response
  | render (page : String) (total_shown : Option Nat)
  | redirect (r : Route)
  | abort (code : Nat)
deriving DecidableEq, Repr

/-- Python runtime errors that the handlers can raise. -/
inductive PyError
  | keyError (key : String)
  | typeError (msg : String)
deriving DecidableEq, Repr

/-- model.py User: id, username, password (hashed), is_admin. -/
structure User where
  id : Nat
  username : String
  password : String
  is_admin : Bool
deriving DecidableEq, Repr

/-- model.py Question: id, question text, four options, answer marker. -/
structure Question where
  id : Nat
  question : String
  option_a : String
  option_b : String
  option_c : String
  option_d : String
  answer : String
deriving DecidableEq, Repr

/-- model.py QuizResult: id, score, total, user_id.  The date column
(defaulted by the storage layer to the creation time) carries no logic
used by any handler and is omitted.  score and total are Int, matching
the signed Integer columns. -/
structure QuizResult where
  id : Nat
  score : Int
  total : Int
  user_id : Nat
deriving DecidableEq, Repr

/-- The Flask session dictionary: the three keys the app uses, none when
the key is absent. -/
structure Session where
  score : Option Nat
  questions_answered : Option Nat
  total_questions : Option Nat
deriving DecidableEq, Repr

/-- The session of a fresh client: no keys set. -/
def emptySession : Session := ⟨none, none, none⟩

/-- The persistent store: the three tables plus autoincrement counters. -/
structure AppState where
  users : List User
  questions : List Question
  results : List QuizResult
  next_user_id : Nat
  next_question_id : Nat
  next_result_id : Nat
deriving DecidableEq, Repr

/-- The store of a freshly created database: empty tables, ids start at 1. -/
def initialState : AppState := ⟨[], [], [], 1, 1, 1⟩

/-- Stand-in for the external werkzeug generate_password_hash (a black-box
collaborator per the spec); no claim depends on its value. -/
def generate_password_hash (password : String) : String :=
  String.append "pbkdf2-sha256$" password

/-- current_user.is_authenticated: false for the anonymous user. -/
def is_authenticated : Option User → Bool
  | none => false
  | some _ => true

/-- current_user.is_admin, false for the anonymous user. -/
def is_admin_of : Option User → Bool
  | none => false
  | some u => u.is_admin

/-- app.py lines 43-57: the admin_required decorator.  If the current user
is not authenticated or not an admin it aborts with 403 before the wrapped
handler runs, so the store is returned unchanged. -/
def admin_required (f : Option User → AppState → AppState × Response)
    (current_user : Option User) (st : AppState) : AppState × Response :=
  if !is_authenticated current_user || !is_admin_of current_user then
    (st, .abort 403)
  else f current_user st

/-- The flask_login login_required decorator with login_view = login:
an unauthenticated caller is redirected to the login page before the
wrapped handler runs. -/
def login_required (f : Option User → AppState → AppState × Response)
    (current_user : Option User) (st : AppState) : AppState × Response :=
  match current_user with
  | none => (st, .redirect .login)
  | some _ => f current_user st

/-- app.py lines 186-219, POST branch of register.  Duplicate username
(case-sensitive filter_by match) redirects back to the register form;
otherwise the new user is created with is_admin true exactly when
User.query.first() returned nothing, i.e. the table is empty. -/
def register (st : AppState) (username password : String) : AppState × Response :=
  let hashed_password := generate_password_hash password
  match st.users.find? (fun u => u.username == username) with
  | some _ => (st, .redirect .register)
  | none =>
    let is_admin := st.users.isEmpty
    let new_user : User :=
      { id := st.next_user_id, username := username,
        password := hashed_password, is_admin := is_admin }
    ({ st with users := st.users ++ [new_user],
               next_user_id := st.next_user_id + 1 },
     .redirect .login)

/-- app.py lines 74-90: make_admin.  get_or_404 aborts with 404 when the
user id is absent; otherwise is_admin is set to true. -/
def make_admin (st : AppState) (user_id : Nat) : AppState × Response :=
  match st.users.find? (fun u => u.id == user_id) with
  | none => (st, .abort 404)
  | some _ =>
    let promoted := st.users.map
      (fun u => if u.id == user_id then { u with is_admin := true } else u)
    ({ st with users := promoted }, .redirect .admin_dashboard)

/-- app.py lines 143-159: delete_question.  get_or_404 aborts with 404 when
the id is absent; otherwise the row is deleted. -/
def delete_question (st : AppState) (question_id : Nat) : AppState × Response :=
  match st.questions.find? (fun q => q.id == question_id) with
  | none => (st, .abort 404)
  | some _ =>
    ({ st with questions := st.questions.filter (fun q => q.id != question_id) },
     .redirect .admin_dashboard)

/-- app.py lines 280-282, GET branch of quiz: stores the live question
count into session, then renders the quiz page (the template receives the
question list, not a count). -/
def quiz_get (sess : Session) (st : AppState) : Session × Response :=
  ({ sess with total_questions := some st.questions.length },
   .render "quiz" none)

/-- app.py lines 274-279, POST branch of quiz: initialises score and
questions_answered to 0 and redirects to question 1.  It does not touch
the total_questions key. -/
def quiz_post (sess : Session) : Session × Response :=
  ({ sess with score := some 0, questions_answered := some 0 },
   .redirect (.question 1))

/-- Question.query.get(question_number): primary-key lookup. -/
def getQuestion (st : AppState) (question_number : Nat) : Option Question :=
  st.questions.find? (fun q => q.id == question_number)

/-- app.py lines 285-310, GET branch of next_question: a missing question
redirects to the results view; otherwise the question page is rendered and
the template receives total_questions = Question.query.count(), the live
count re-queried on every view. -/
def next_question_get (sess : Session) (st : AppState) (question_number : Nat) :
    Session × Response :=
  match getQuestion st question_number with
  | none => (sess, .redirect .result)
  | some _ => (sess, .render "question" (some st.questions.length))

/-- app.py lines 297-307, POST branch of next_question.  The question is
fetched first; a missing question redirects to the results view before any
session access.  Otherwise request.form.get("answer") (none when the field
is absent) is compared with == to the stored answer; on a match
session["score"] += 1 runs, an unguarded read that raises KeyError when the
key is absent, and then session["questions_answered"] += 1 runs, likewise
unguarded. -/
def next_question_post (sess : Session) (st : AppState) (question_number : Nat)
    (form_answer : Option String) : Except PyError (Session × Response) :=
  match getQuestion st question_number with
  | none => .ok (sess, .redirect .result)
  | some question =>
    let user_answer := form_answer
    let correct_answer := question.answer
    (if user_answer == some correct_answer then
      match sess.score with
      | none => Except.error (PyError.keyError "score")
      | some s => Except.ok { sess with score := some (s + 1) }
    else Except.ok sess).bind (fun sess1 =>
      match sess1.questions_answered with
      | none => .error (.keyError "questions_answered")
      | some n =>
        .ok ({ sess1 with questions_answered := some (n + 1) },
             .redirect (.question (question_number + 1))))

/-- app.py lines 313-334: submit_quiz.  It reads session.get("score", 0)
and session.get("total_questions", 0) and then evaluates
QuizResult(user_id=current_user.id, score=score, total_questions=total_questions).
The QuizResult model (model.py lines 46-60) declares columns score, total,
user_id, date but no column total_questions, so the declarative model
constructor raises TypeError before any row is added or committed; the
session keys are never popped and no record is persisted. -/
def submit_quiz (sess : Session) (st : AppState) (current_user_id : Nat) :
    Except PyError (Session × AppState × Response) :=
  .error (.typeError "total_questions is an invalid keyword argument for QuizResult")

/-- app.py lines 337-364: the result view.  It reads
session.get("score", 0), re-queries total = Question.query.count() (the
live count), persists a new QuizResult(score=score, total=total,
user_id=current_user.id), and renders the results page.  No session key is
popped and no already-submitted guard exists. -/
def result (sess : Session) (st : AppState) (current_user_id : Nat) :
    Session × AppState × Response :=
  let score := sess.score.getD 0
  let total := st.questions.length
  let res : QuizResult :=
    { id := st.next_result_id, score := (score : Int),
      total := (total : Int), user_id := current_user_id }
  (sess,
   { st with results := st.results ++ [res],
             next_result_id := st.next_result_id + 1 },
   .render "result" (some total))

/-- One item of the add_question form: the six request.form.get values,
none when the field is absent from the form. -/
structure QuestionForm where
  question : Option String
  option_a : Option String
  option_b : Option String
  option_c : Option String
  option_d : Option String
  answer : Option String
deriving DecidableEq, Repr

/-- Python truthiness of an optional string: None and the empty string are
falsy, any other string is truthy. -/
def truthy : Option String → Bool
  | none => false
  | some s => !s.isEmpty

/-- app.py lines 395-402: the per-item validation
not all([question_text, option_a, option_b, option_c, option_d, correct_answer]). -/
def validItem (f : QuestionForm) : Bool :=
  truthy f.question && truthy f.option_a && truthy f.option_b &&
  truthy f.option_c && truthy f.option_d && truthy f.answer

/-- app.py lines 383-413: the validation loop that builds question_data.
The first invalid item returns early (redirect back to the form), which is
modelled as none; otherwise the collected list is returned. -/
def collect_question_data : List QuestionForm → Option (List QuestionForm)
  | [] => some []
  | f :: rest =>
    if validItem f then (collect_question_data rest).map (fun l => f :: l)
    else none

/-- app.py lines 416-426: the insertion loop over the validated
question_data, each row receiving the next autoincrement id. -/
def insertQuestions (st : AppState) : List QuestionForm → AppState
  | [] => st
  | f :: rest =>
    insertQuestions
      { st with
        questions := st.questions ++
          [{ id := st.next_question_id,
             question := f.question.getD "",
             option_a := f.option_a.getD "",
             option_b := f.option_b.getD "",
             option_c := f.option_c.getD "",
             option_d := f.option_d.getD "",
             answer := f.answer.getD "" }],
        next_question_id := st.next_question_id + 1 }
      rest

/-- app.py lines 367-431: add_question.  The route is wrapped only in
login_required (modelled by the current_user match); the admin check is
inline: a non-admin caller is flashed a message and redirected to the
index page, not aborted with 403.  On POST, validation runs over the whole
batch before any insert, so an invalid item leaves the store unchanged. -/
def add_question_post (current_user : Option User) (st : AppState)
    (items : List QuestionForm) : AppState × Response :=
  match current_user with
  | none => (st, .redirect .login)
  | some u =>
    if !u.is_admin then (st, .redirect .index)
    else
      match collect_question_data items with
      | none => (st, .redirect .add_question)
      | some question_data =>
        (insertQuestions st question_data, .redirect .admin_dashboard)

/-- The store operations of the authentication subsystem that claim C6
quantifies over: successful-or-failed registration attempts and admin
promotions (make_admin, an admin-gated route; the gate itself is the
admin_required model above). -/
inductive AuthOp
  | register (username password : String)
  | promote (user_id : Nat)
deriving DecidableEq, Repr

/-- The store effect of one authentication operation. -/
def authStep (st : AppState) : AuthOp → AppState
  | .register u p => (QuizApp.register st u p).1
  | .promote uid => (make_admin st uid).1

/-- Left-to-right execution of a list of authentication operations. -/
def execAuth (st : AppState) : List AuthOp → AppState
  | [] => st
  | op :: rest => execAuth (authStep st op) rest

deriving instance DecidableEq for Except

/-! Concrete data used by witnesses and counterexamples. -/

/-- A concrete question with stored answer marker "a". -/
def q1 : Question := ⟨1, "Q1", "optA", "optB", "optC", "optD", "a"⟩

/-- A concrete store holding just q1. -/
def demoSt : AppState := ⟨[], [q1], [], 1, 2, 1⟩

/-- The first registered user, as register creates it from the fresh store. -/
def cexAlice : User := ⟨1, "alice", generate_password_hash "pw", true⟩

/-- A concrete authenticated non-admin user, as register creates it as the
second user. -/
def cexBob : User := ⟨2, "bob", generate_password_hash "pw", false⟩

/-- The store after alice registered on the fresh database. -/
def cexSt0 : AppState := (register initialState "alice" "pw").1

/-- A fully valid add_question form item with answer marker "a". -/
def cexForm (t : String) : QuestionForm :=
  ⟨some t, some "optA", some "optB", some "optC", some "optD", some "a"⟩

/-- The store after alice (the admin) added five valid questions to the
fresh store: questions with ids 1 through 5. -/
def cexSt5 : AppState :=
  (add_question_post (some cexAlice) cexSt0
    [cexForm "q1", cexForm "q2", cexForm "q3", cexForm "q4", cexForm "q5"]).1

/-- cexSt5 after the admin deleted questions 5, 4 and 3: two questions
remain. -/
def cexStD : AppState :=
  (delete_question (delete_question (delete_question cexSt5 5).1 4).1 3).1

/-- The store after alice added a single valid question (id 1, answer
marker "a") to the fresh store. -/
def c2St1 : AppState := (add_question_post (some cexAlice) cexSt0 [cexForm "only"]).1

/-- A record as the results view persists it from the fresh session over
demoSt. -/
def demoRec : QuizResult := ⟨1, 0, 1, 1⟩

/-- The question rows the add_question insertion loop builds from the
validated form items, starting at a given autoincrement id; used to state
what a successful batch insert appends. -/
def mkQuestions (next_id : Nat) : List QuestionForm → List Question
  | [] => []
  | f :: rest =>
    { id := next_id,
      question := f.question.getD "",
      option_a := f.option_a.getD "",
      option_b := f.option_b.getD "",
      option_c := f.option_c.getD "",
      option_d := f.option_d.getD "",
      answer := f.answer.getD "" } :: mkQuestions (next_id + 1) rest

/-- The state of having an admin first user: whenever the user table is
nonempty, its first row has is_admin = true. -/
def headAdmin (st : AppState) : Prop :=
  ∀ u, st.users[0]? = some u → u.is_admin = true

/-- A concrete operation list for the C6 witness: two registrations
followed by a promotion of the second user. -/
def c6ops : List AuthOp :=
  [.register "alice" "pw", .register "bob" "pw", .promote 2]

/-! ## Claim theorems -/

/-- C1: for every answer POST for question i such that a question with
identifier i exists (and the session counters are present, the started-quiz
situation this handler presupposes; their absence is claim C10), the score
increments by 1 iff the submitted answer equals the stored answer marker
under exact case-sensitive string equality, the index advances by 1
regardless of correctness, and questions_answered increments by 1. -/
theorem answer_submission_scoring (sess : Session) (st : AppState) (n : Nat)
    (q : Question) (a : Option String) (s k : Nat)
    (hq : getQuestion st n = some q)
    (hs : sess.score = some s)
    (hk : sess.questions_answered = some k) :
    next_question_post sess st n a =
      Except.ok ({ sess with
                   score := some (if a == some q.answer then s + 1 else s),
                   questions_answered := some (k + 1) },
                 Response.redirect (Route.question (n + 1))) := by
  unfold next_question_post
  rw [hq]
  by_cases hc : a == some q.answer
  · simp only [hc, if_pos, hs]
    simp [Except.bind, hk]
  · simp only [Bool.not_eq_true] at hc
    simp [hc, Except.bind, hk, hs]

/-- Witness for C1, also checking case sensitivity: submitting "A" against
the stored marker "a" is scored wrong (score stays 0) while the index
advances and questions_answered increments. -/
theorem answer_submission_scoring_witness :
    next_question_post ⟨some 0, some 0, some 1⟩ demoSt 1 (some "A") =
      Except.ok ((⟨some 0, some 1, some 1⟩ : Session),
                 Response.redirect (Route.question 2)) := by
  have h := answer_submission_scoring ⟨some 0, some 0, some 1⟩ demoSt 1 q1
    (some "A") 0 0 (by decide) rfl rfl
  simpa using h

/-- C4: fetching question i (GET or POST) when no question with identifier
i exists does not fail: the handler redirects to the results view before
any session access, leaving the session unchanged. -/
theorem missing_question_end_of_quiz (sess : Session) (st : AppState)
    (n : Nat) (a : Option String)
    (hq : getQuestion st n = none) :
    next_question_post sess st n a = Except.ok (sess, Response.redirect Route.result)
    ∧ next_question_get sess st n = (sess, Response.redirect Route.result) := by
  constructor
  · unfold next_question_post; rw [hq]
  · unfold next_question_get; rw [hq]

/-- Witness for C4: question 5 was never created in demoSt, so both the
view and the answer submission for it resolve to the results redirect. -/
theorem missing_question_end_of_quiz_witness :
    next_question_post emptySession demoSt 5 (some "a") =
      Except.ok (emptySession, Response.redirect Route.result)
    ∧ next_question_get emptySession demoSt 5 =
        (emptySession, Response.redirect Route.result) :=
  missing_question_end_of_quiz emptySession demoSt 5 (some "a") (by decide)

/-- C10: an answer POST for an existing question while the session holds
neither the score nor the questions_answered key raises a KeyError (on
"score" when the submitted answer matches the stored marker, since that
read runs first, and otherwise on "questions_answered") instead of
producing a response. -/
theorem unstarted_session_raises_keyerror (sess : Session) (st : AppState)
    (n : Nat) (a : Option String) (q : Question)
    (hq : getQuestion st n = some q)
    (hs : sess.score = none)
    (hk : sess.questions_answered = none) :
    next_question_post sess st n a =
      Except.error (PyError.keyError
        (if a == some q.answer then "score" else "questions_answered")) := by
  unfold next_question_post
  rw [hq]
  by_cases hc : a == some q.answer
  · simp [hc, hs, Except.bind]
  · simp only [Bool.not_eq_true] at hc
    simp [hc, Except.bind, hk]

/-- Witness for C10: submitting a wrong answer to question 1 with a fresh
session raises KeyError on questions_answered. -/
theorem unstarted_session_raises_keyerror_witness :
    next_question_post emptySession demoSt 1 (some "x") =
      Except.error (PyError.keyError "questions_answered") := by
  have h := unstarted_session_raises_keyerror emptySession demoSt 1 (some "x")
    q1 (by decide) rfl rfl
  simpa using h

/-- C9: every visit to the results view persists one new QuizResult whose
score is the current session score (0 when the key is absent); the session
is left untouched and there is no one-shot guard, so a second visit in the
same flow persists another record. -/
theorem results_view_repersists (sess : Session) (st : AppState) (uid : Nat) :
    (result sess st uid).1 = sess
    ∧ ((result sess st uid).2.1).results =
        st.results ++ [⟨st.next_result_id, (sess.score.getD 0 : Int),
                        (st.questions.length : Int), uid⟩]
    ∧ ((result ((result sess st uid).1) ((result sess st uid).2.1) uid).2.1).results.length
        = st.results.length + 2 := by
  refine ⟨rfl, rfl, ?_⟩
  simp [result]

/-- C3 (amended): the results view persists score = current session score
(0 when absent) and total = the live question count, and the explicit
submit path persists nothing: it raises TypeError because its QuizResult
constructor call uses the keyword total_questions, which is not a column
of the model. -/
theorem finalize_paths (sess : Session) (st : AppState) (uid : Nat) :
    result sess st uid =
      (sess,
       ⟨st.users, st.questions,
        st.results ++ [⟨st.next_result_id, (sess.score.getD 0 : Int),
                        (st.questions.length : Int), uid⟩],
        st.next_user_id, st.next_question_id, st.next_result_id + 1⟩,
       Response.render "result" (some st.questions.length))
    ∧ submit_quiz sess st uid =
        Except.error (PyError.typeError
          "total_questions is an invalid keyword argument for QuizResult") :=
  ⟨rfl, rfl⟩

/-- Counterexample to C3 as stated: in a reachable flow the quiz page is
viewed with 5 questions in the bank (snapshot total_questions = 5), the
quiz starts, three questions are deleted, and the results view is reached
directly: the persisted record has total = 2, the live count, not the
snapshotted 5 the claim assigns to this path. -/
theorem finalize_totals_cex :
    cexSt0.users = [cexAlice]
    ∧ cexSt5.questions.length = 5
    ∧ (quiz_get emptySession cexSt5).1 = ⟨none, none, some 5⟩
    ∧ (quiz_post ⟨none, none, some 5⟩).1 = ⟨some 0, some 0, some 5⟩
    ∧ cexStD.questions.length = 2
    ∧ ((result ⟨some 0, some 0, some 5⟩ cexStD 1).2.1).results =
        [⟨1, 0, 2, 1⟩]
    ∧ ((2 : Int) ≠ (5 : Int)) := by decide

/-- C5 (amended): the quiz-start POST sets the session score and
questions_answered to 0 and leaves total_questions untouched; the
total_questions snapshot (count of all questions at that instant) is taken
when the quiz page is rendered by the GET branch, not at the start POST. -/
theorem quiz_start_and_snapshot (sess : Session) (st : AppState) :
    quiz_post sess =
      ({ sess with score := some 0, questions_answered := some 0 },
       Response.redirect (Route.question 1))
    ∧ quiz_get sess st =
      ({ sess with total_questions := some st.questions.length },
       Response.render "quiz" none) :=
  ⟨rfl, rfl⟩

/-- Counterexample to C5 as stated: the quiz page is viewed while the bank
holds 5 questions, three are then deleted, and the quiz-start POST fires
while the bank holds 2; the claim requires total_questions = some 2 (the
count at that instant) after the POST, but the POST leaves the stale value
some 5 in place. -/
theorem quiz_start_snapshot_cex :
    (quiz_get emptySession cexSt5).1 = ⟨none, none, some 5⟩
    ∧ cexStD.questions.length = 2
    ∧ (quiz_post ⟨none, none, some 5⟩).1.total_questions = some 5
    ∧ some (5 : Nat) ≠ some (2 : Nat) := by decide

/-- Counterexample to C2 as stated: a reachable flow in which a persisted
QuizResult violates score ≤ total.  The user starts a quiz over the
one-question bank, answers it correctly (session score 1), the admin then
deletes the question, and the results view persists score = 1 with
total = 0, the live count of the now-empty bank. -/
theorem quizresult_bound_cex :
    cexSt0.users = [cexAlice]
    ∧ c2St1.questions.length = 1
    ∧ (quiz_get emptySession c2St1).1 = ⟨none, none, some 1⟩
    ∧ (quiz_post ⟨none, none, some 1⟩).1 = ⟨some 0, some 0, some 1⟩
    ∧ next_question_post ⟨some 0, some 0, some 1⟩ c2St1 1 (some "a") =
        Except.ok ((⟨some 1, some 1, some 1⟩ : Session),
                   Response.redirect (Route.question 2))
    ∧ (delete_question c2St1 1).1.questions = []
    ∧ ((result ⟨some 1, some 1, some 1⟩ (delete_question c2St1 1).1 1).2.1).results =
        [⟨1, 1, 0, 1⟩]
    ∧ ¬((1 : Int) ≤ (0 : Int)) := by decide

/-- C2 (amended): every record persisted by the results view satisfies
0 ≤ score, and score ≤ total holds provided the session score does not
exceed the live question count at finalization (which the counterexample
shows can fail when the bank shrinks mid-session); the explicit submit
path persists no record. -/
theorem result_record_bounds (sess : Session) (st : AppState) (uid : Nat)
    (h : sess.score.getD 0 ≤ st.questions.length) :
    ∀ r ∈ ((result sess st uid).2.1).results,
      r ∈ st.results ∨ (0 ≤ r.score ∧ r.score ≤ r.total) := by
  intro r hr
  simp only [result, List.mem_append, List.mem_singleton] at hr
  rcases hr with hr | hr
  · exact Or.inl hr
  · subst hr
    refine Or.inr ⟨Int.natCast_nonneg _, ?_⟩
    show ((sess.score.getD 0 : Nat) : Int) ≤ ((st.questions.length : Nat) : Int)
    exact_mod_cast h

/-- Witness for C2 (amended): the record persisted from the fresh session
over the one-question store satisfies the bounds. -/
theorem result_record_bounds_witness :
    demoRec ∈ demoSt.results ∨ (0 ≤ demoRec.score ∧ demoRec.score ≤ demoRec.total) :=
  result_record_bounds emptySession demoSt 1 (by decide) demoRec (by decide)

/-- C7 (amended): operations wrapped in login_required and admin_required
redirect unauthenticated callers to the login page and abort 403 Forbidden
for authenticated non-admin callers, while add_question (whose admin check
is inline) redirects authenticated non-admin callers to the index page
instead of Forbidden; in every failing case the check runs before the
gated operation, short-circuits, and leaves the store unchanged, and an
authenticated admin reaches the wrapped operation. -/
theorem admin_gate_short_circuit
    (f : Option User → AppState → AppState × Response)
    (cu : Option User) (st : AppState) (items : List QuestionForm) :
    (cu = none →
      login_required (admin_required f) cu st = (st, Response.redirect Route.login))
    ∧ (∀ u, cu = some u → u.is_admin = false →
      login_required (admin_required f) cu st = (st, Response.abort 403)
      ∧ add_question_post cu st items = (st, Response.redirect Route.index))
    ∧ (∀ u, cu = some u → u.is_admin = true →
      login_required (admin_required f) cu st = f cu st) := by
  refine ⟨?_, ?_, ?_⟩
  · intro h; subst h; rfl
  · intro u h hadm; subst h
    constructor
    · simp [login_required, admin_required, is_authenticated, is_admin_of, hadm]
    · simp [add_question_post, hadm]
  · intro u h hadm; subst h
    simp [login_required, admin_required, is_authenticated, is_admin_of, hadm]

/-- Witness for C7 (amended): the non-admin user bob is aborted with 403
by a decorator-gated operation and redirected to the index by
add_question, in both cases with the store unchanged. -/
theorem admin_gate_short_circuit_witness :
    login_required (admin_required (fun _ s => (s, Response.render "x" none)))
        (some cexBob) demoSt = (demoSt, Response.abort 403)
    ∧ add_question_post (some cexBob) demoSt [] =
        (demoSt, Response.redirect Route.index) :=
  (admin_gate_short_circuit (fun _ s => (s, Response.render "x" none))
    (some cexBob) demoSt []).2.1 cexBob rfl rfl

/-- Counterexample to C7 as stated: bob, the second registered user, is
authenticated but not an admin, yet his add_question request does not fail
with Forbidden: it is answered with a redirect to the index page, which is
not the 403 abort. -/
theorem admin_gate_forbidden_cex :
    (register cexSt0 "bob" "pw").1.users = [cexAlice, cexBob]
    ∧ add_question_post (some cexBob) demoSt [cexForm "t"] =
        (demoSt, Response.redirect Route.index)
    ∧ Response.redirect Route.index ≠ Response.abort 403 := by decide

/-- The validation loop accepts a batch exactly when every item is valid,
returning the collected items unchanged. -/
theorem collect_question_data_all_valid (items : List QuestionForm)
    (h : ∀ g ∈ items, validItem g = true) :
    collect_question_data items = some items := by
  induction items with
  | nil => rfl
  | cons f rest ih =>
    have hf := h f (List.mem_cons_self f rest)
    simp [collect_question_data, hf,
          ih (fun g hg => h g (List.mem_cons_of_mem f hg))]

/-- The validation loop rejects the whole batch as soon as it holds one
invalid item. -/
theorem collect_question_data_has_invalid (items : List QuestionForm)
    (g : QuestionForm) (hg : g ∈ items) (hbad : validItem g = false) :
    collect_question_data items = none := by
  induction items with
  | nil => cases hg
  | cons f rest ih =>
    by_cases hf : validItem f = true
    · rcases List.mem_cons.mp hg with h1 | hgr
      · rw [← h1] at hf; rw [hf] at hbad; cases hbad
      · simp [collect_question_data, hf, ih hgr]
    · simp [collect_question_data, hf]

/-- The insertion loop appends exactly the rows built from the validated
items, consuming one autoincrement id per row. -/
theorem insertQuestions_questions (data : List QuestionForm) : ∀ st : AppState,
    (insertQuestions st data).questions =
      st.questions ++ mkQuestions st.next_question_id data := by
  induction data with
  | nil => intro st; simp [insertQuestions, mkQuestions]
  | cons f rest ih =>
    intro st
    simp only [insertQuestions, mkQuestions]
    rw [ih]
    simp [List.append_assoc]

/-- The rows built from a batch are in bijection with the batch. -/
theorem mkQuestions_length (n : Nat) (data : List QuestionForm) :
    (mkQuestions n data).length = data.length := by
  induction data generalizing n with
  | nil => rfl
  | cons f rest ih => simp [mkQuestions, ih]

/-- C8: an admin-submitted batch with any item missing any of its 6
required text fields is rejected whole, leaving the store (hence the
question count) unchanged; a batch in which every item is valid inserts
every item. -/
theorem batch_add_question (u : User) (st : AppState)
    (items : List QuestionForm) (hadmin : u.is_admin = true) :
    ((∃ g ∈ items, validItem g = false) →
      add_question_post (some u) st items = (st, Response.redirect Route.add_question))
    ∧ ((∀ g ∈ items, validItem g = true) →
      (add_question_post (some u) st items).1.questions =
        st.questions ++ mkQuestions st.next_question_id items
      ∧ (add_question_post (some u) st items).1.questions.length =
          st.questions.length + items.length) := by
  constructor
  · rintro ⟨g, hg, hbad⟩
    simp [add_question_post, hadmin,
          collect_question_data_has_invalid items g hg hbad]
  · intro hall
    have hc := collect_question_data_all_valid items hall
    refine ⟨?_, ?_⟩
    · simp [add_question_post, hadmin, hc, insertQuestions_questions]
    · simp [add_question_post, hadmin, hc, insertQuestions_questions,
            List.length_append, mkQuestions_length]

/-- Witness for C8: alice, the admin, submits a batch of one valid item to
the fresh store, and it is inserted. -/
theorem batch_add_question_witness :
    (add_question_post (some cexAlice) initialState [cexForm "t"]).1.questions =
      initialState.questions ++ mkQuestions initialState.next_question_id [cexForm "t"]
    ∧ (add_question_post (some cexAlice) initialState [cexForm "t"]).1.questions.length =
        initialState.questions.length + [cexForm "t"].length :=
  (batch_add_question cexAlice initialState [cexForm "t"] rfl).2 (by decide)

/-- One authentication operation never shrinks the user table. -/
theorem authStep_users_length_le (st : AppState) (op : AuthOp) :
    st.users.length ≤ (authStep st op).users.length := by
  cases op with
  | register u p =>
    cases h : st.users.find? (fun x => x.username == u) with
    | some w => simp [authStep, register, h]
    | none => simp [authStep, register, h]
  | promote uid =>
    cases h : st.users.find? (fun x => x.id == uid) with
    | some w => simp [authStep, make_admin, h]
    | none => simp [authStep, make_admin, h]

/-- One authentication operation keeps the id of every existing row and
makes a row an admin only if it was one already or the operation is the
promotion of exactly that id. -/
theorem authStep_getElem (st : AppState) (op : AuthOp) (i : Nat) (u w : User)
    (hu : st.users[i]? = some u)
    (hw : (authStep st op).users[i]? = some w) :
    w.id = u.id ∧
    (w.is_admin = true → u.is_admin = true ∨ op = AuthOp.promote u.id) := by
  obtain ⟨hlt, hget⟩ := List.getElem?_eq_some.mp hu
  cases op with
  | register un p =>
    cases h : st.users.find? (fun x => x.username == un) with
    | some v =>
      simp only [authStep, register, h] at hw
      rw [hu] at hw
      cases hw
      exact ⟨rfl, fun ha => Or.inl ha⟩
    | none =>
      simp only [authStep, register, h] at hw
      rw [List.getElem?_append_left hlt, hu] at hw
      cases hw
      exact ⟨rfl, fun ha => Or.inl ha⟩
  | promote uid =>
    cases h : st.users.find? (fun x => x.id == uid) with
    | none =>
      simp only [authStep, make_admin, h] at hw
      rw [hu] at hw
      cases hw
      exact ⟨rfl, fun ha => Or.inl ha⟩
    | some v =>
      simp only [authStep, make_admin, h] at hw
      rw [List.getElem?_map, hu] at hw
      simp only [Option.map] at hw
      injection hw with hw2
      subst hw2
      by_cases hid : u.id == uid
      · have hid2 : u.id = uid := eq_of_beq hid
        rw [if_pos hid]
        exact ⟨rfl, fun _ => Or.inr (by rw [hid2])⟩
      · rw [if_neg hid]
        exact ⟨rfl, fun ha => Or.inl ha⟩

/-- A row at a position past the end of the old user table can only be the
row a registration just appended: it sits at the old length and its admin
flag is the emptiness of the old table. -/
theorem authStep_getElem_new (st : AppState) (op : AuthOp) (i : Nat) (w : User)
    (h : st.users.length ≤ i)
    (hw : (authStep st op).users[i]? = some w) :
    i = st.users.length ∧ w.is_admin = st.users.isEmpty := by
  obtain ⟨hlt, _⟩ := List.getElem?_eq_some.mp hw
  cases op with
  | register un p =>
    cases hf : st.users.find? (fun x => x.username == un) with
    | some v =>
      simp only [authStep, register, hf] at hw hlt
      omega
    | none =>
      simp only [authStep, register, hf] at hw hlt
      rw [List.length_append, List.length_singleton] at hlt
      have hi : i = st.users.length := by omega
      subst hi
      rw [List.getElem?_concat_length] at hw
      cases hw
      exact ⟨rfl, rfl⟩
  | promote uid =>
    cases hf : st.users.find? (fun x => x.id == uid) with
    | none =>
      simp only [authStep, make_admin, hf] at hlt
      omega
    | some v =>
      simp only [authStep, make_admin, hf] at hlt
      rw [List.length_map] at hlt
      omega

/-- Executing a list of authentication operations keeps the id of every
row that already existed. -/
theorem execAuth_getElem_id (ops : List AuthOp) : ∀ (st : AppState) (i : Nat)
    (u w : User), st.users[i]? = some u →
    (execAuth st ops).users[i]? = some w → w.id = u.id := by
  induction ops with
  | nil =>
    intro st i u w hu hw
    simp only [execAuth] at hw
    rw [hu] at hw
    cases hw
    rfl
  | cons op rest ih =>
    intro st i u w hu hw
    obtain ⟨hlt, _⟩ := List.getElem?_eq_some.mp hu
    have hlt1 : i < (authStep st op).users.length :=
      Nat.lt_of_lt_of_le hlt (authStep_users_length_le st op)
    have hv : (authStep st op).users[i]? = some ((authStep st op).users.get ⟨i, hlt1⟩) :=
      List.getElem?_eq_getElem hlt1
    have h1 := (authStep_getElem st op i u _ hu hv).1
    have h2 := ih (authStep st op) i _ w hv hw
    rw [h2, h1]

/-- Provenance of the admin flag: after a list of authentication
operations, an admin row either was already an admin, or is the target of
a promotion in the list, or is the very first row created in an initially
empty table. -/
theorem execAuth_admin_source (ops : List AuthOp) : ∀ (st : AppState) (i : Nat)
    (w : User), (execAuth st ops).users[i]? = some w → w.is_admin = true →
    (∃ u, st.users[i]? = some u ∧ u.is_admin = true)
    ∨ AuthOp.promote w.id ∈ ops
    ∨ (st.users = [] ∧ i = 0) := by
  induction ops with
  | nil =>
    intro st i w hw hadm
    exact Or.inl ⟨w, hw, hadm⟩
  | cons op rest ih =>
    intro st i w hw hadm
    rcases ih (authStep st op) i w hw hadm with ⟨v, hv, hvadm⟩ | hmem | ⟨hemp, hi⟩
    · by_cases hlt : i < st.users.length
      · have hu : st.users[i]? = some (st.users.get ⟨i, hlt⟩) :=
          List.getElem?_eq_getElem hlt
        obtain ⟨hid, himp⟩ := authStep_getElem st op i _ v hu hv
        rcases himp hvadm with hadm0 | hop
        · exact Or.inl ⟨_, hu, hadm0⟩
        · have hwid : w.id = v.id := execAuth_getElem_id rest (authStep st op) i v w hv hw
          have heq : AuthOp.promote w.id = op := by rw [hop, hwid, hid]
          refine Or.inr (Or.inl ?_)
          rw [heq]
          exact List.mem_cons_self op rest
      · obtain ⟨hi_eq, hadm_eq⟩ :=
          authStep_getElem_new st op i v (Nat.le_of_not_lt hlt) hv
        rw [hvadm] at hadm_eq
        have hempty : st.users = [] := List.isEmpty_iff.mp hadm_eq.symm
        refine Or.inr (Or.inr ⟨hempty, ?_⟩)
        rw [hi_eq, hempty]
        rfl
    · exact Or.inr (Or.inl (List.mem_cons_of_mem op hmem))
    · have hlen := authStep_users_length_le st op
      rw [hemp] at hlen
      simp only [List.length_nil, Nat.le_zero] at hlen
      exact Or.inr (Or.inr ⟨List.length_eq_zero.mp hlen, hi⟩)

/-- One authentication operation preserves the admin-first-row state:
registration seeds the admin flag exactly on an empty table and appends
otherwise, and promotion only ever raises the flag. -/
theorem authStep_headAdmin (st : AppState) (op : AuthOp)
    (hinv : headAdmin st) : headAdmin (authStep st op) := by
  intro w hw
  cases op with
  | register un p =>
    cases hf : st.users.find? (fun x => x.username == un) with
    | some v =>
      simp only [authStep, register, hf] at hw
      exact hinv w hw
    | none =>
      simp only [authStep, register, hf] at hw
      cases hl : st.users with
      | nil =>
        rw [hl] at hw
        simp only [List.nil_append] at hw
        cases hw
        simp [hl]
      | cons x xs =>
        rw [hl] at hw
        simp only [List.cons_append, List.getElem?_cons_zero] at hw
        injection hw with hw2
        rw [← hw2]
        exact hinv x (by rw [hl]; exact List.getElem?_cons_zero)
  | promote uid =>
    cases hf : st.users.find? (fun x => x.id == uid) with
    | none =>
      simp only [authStep, make_admin, hf] at hw
      exact hinv w hw
    | some v =>
      simp only [authStep, make_admin, hf] at hw
      rw [List.getElem?_map] at hw
      cases hx : st.users[0]? with
      | none => rw [hx] at hw; cases hw
      | some x =>
        rw [hx] at hw
        simp only [Option.map] at hw
        have hxadm := hinv x hx
        injection hw with hw2
        rw [← hw2]
        by_cases hid : x.id == uid
        · rw [if_pos hid]
        · rw [if_neg hid]
          exact hxadm

/-- Executing any list of authentication operations preserves the
admin-first-row state. -/
theorem execAuth_headAdmin (ops : List AuthOp) : ∀ st : AppState,
    headAdmin st → headAdmin (execAuth st ops) := by
  induction ops with
  | nil => intro st h; exact h
  | cons op rest ih => intro st h; exact ih (authStep st op) (authStep_headAdmin st op h)

/-- C6: over any sequence of registrations and promotions run against the
initially empty credential store, the first row of the user table has
is_admin = true, and any other row has is_admin = true only if the
operation list contains an explicit promotion of exactly that user id. -/
theorem first_registrant_admin (ops : List AuthOp) :
    (∀ u, (execAuth initialState ops).users[0]? = some u → u.is_admin = true)
    ∧ (∀ i u, 0 < i → (execAuth initialState ops).users[i]? = some u →
        u.is_admin = true → AuthOp.promote u.id ∈ ops) := by
  constructor
  · exact execAuth_headAdmin ops initialState (by intro u hu; simp [initialState] at hu)
  · intro i u hpos hu hadm
    rcases execAuth_admin_source ops initialState i u hu hadm with ⟨v, hv, _⟩ | h | ⟨_, hi⟩
    · simp [initialState] at hv
    · exact h
    · omega

/-- Witness for C6: after registering alice then bob and promoting user 2,
the first row (alice) is an admin, and bob being an admin is explained by
the promotion of his id being in the operation list. -/
theorem first_registrant_admin_witness :
    cexAlice.is_admin = true ∧ AuthOp.promote 2 ∈ c6ops :=
  ⟨(first_registrant_admin c6ops).1 cexAlice (by decide),
   (first_registrant_admin c6ops).2 1 ⟨2, "bob", generate_password_hash "pw", true⟩
     (by decide) (by decide) rfl⟩

end QuizApp
